import Mathlib

set_option maxRecDepth 100000

/-!
Verification of the incr-game-analytics telemetry service (src/app.py and
src/b64pickle.py) against its natural-language specification.

The development shallowly embeds the program: bytes are `Nat` values below 256,
byte strings are `List Nat`, Python strings are `List Char`, raised exceptions
are the `Except.error` branch, and machine arithmetic carries explicit
`% 2 ^ 32` reductions.  External collaborators that the spec fixes only by
contract (the itsdangerous signer, the pickle serialization, the storage sink,
the HTTP scaffolding) are modelled from the spec, each marked by a doc comment
starting with `Modelled from the spec:`.
-/

/-! ## 32-bit words and SHA-1 (as used by CPython uuid.uuid5) -/

/-- Reduce a natural number to a 32-bit word. -/
def w32 (n : Nat) : Nat := n % 4294967296

/-- Left rotation of a 32-bit word by `r` bits. -/
def rotl32 (r x : Nat) : Nat := w32 ((x <<< r).lor (x >>> (32 - r)))

/-- Big-endian 32-bit word from four bytes. -/
def beWord (a b c d : Nat) : Nat := a * 16777216 + b * 65536 + c * 256 + d

/-- Group a byte list into big-endian 32-bit words. -/
def bytesToWords : List Nat → List Nat
  | a :: b :: c :: d :: rest => beWord a b c d :: bytesToWords rest
  | _ => []

/-- Big-endian 4-byte encoding of a 32-bit word. -/
def beBytes4 (n : Nat) : List Nat :=
  [(n >>> 24) % 256, (n >>> 16) % 256, (n >>> 8) % 256, n % 256]

/-- Big-endian 8-byte encoding of a 64-bit value. -/
def beBytes8 (n : Nat) : List Nat :=
  [(n >>> 56) % 256, (n >>> 48) % 256, (n >>> 40) % 256, (n >>> 32) % 256,
   (n >>> 24) % 256, (n >>> 16) % 256, (n >>> 8) % 256, n % 256]

/-- SHA-1 padding: append 0x80, zero bytes up to 56 mod 64, then the 64-bit
big-endian bit length. -/
def sha1pad (msg : List Nat) : List Nat :=
  let L := msg.length
  let z := (119 - L % 64) % 64
  msg ++ [128] ++ List.replicate z 0 ++ beBytes8 (L * 8)

/-- SHA-1 message-schedule extension: repeatedly append
`rotl1 (w[i-3] xor w[i-8] xor w[i-14] xor w[i-16])`. -/
def sha1ExtendFrom (w : List Nat) : Nat → List Nat
  | 0 => w
  | fuel + 1 =>
    let i := w.length
    sha1ExtendFrom
      (w ++ [rotl32 1 (((w.getD (i - 3) 0).xor (w.getD (i - 8) 0)).xor
        (((w.getD (i - 14) 0)).xor (w.getD (i - 16) 0)))]) fuel

/-- SHA-1 round function for round `t`. -/
def sha1f (t b c d : Nat) : Nat :=
  if t < 20 then (b.land c).lor ((4294967295 - b).land d)
  else if t < 40 then (b.xor c).xor d
  else if t < 60 then ((b.land c).lor (b.land d)).lor (c.land d)
  else (b.xor c).xor d

/-- SHA-1 round constant for round `t`. -/
def sha1k (t : Nat) : Nat :=
  if t < 20 then 0x5A827999
  else if t < 40 then 0x6ED9EBA1
  else if t < 60 then 0x8F1BBCDC
  else 0xCA62C1D6

/-- One pass of the 80 SHA-1 rounds over the extended schedule. -/
def sha1Rounds : Nat → List Nat → Nat × Nat × Nat × Nat × Nat → Nat × Nat × Nat × Nat × Nat
  | _, [], st => st
  | t, wt :: ws, (a, b, c, d, e) =>
    let temp := w32 (rotl32 5 a + sha1f t b c d + e + sha1k t + wt)
    sha1Rounds (t + 1) ws (temp, a, rotl32 30 b, c, d)

/-- Process `fuel` 64-byte blocks of an already padded message. -/
def sha1Loop : Nat → List Nat → Nat × Nat × Nat × Nat × Nat → Nat × Nat × Nat × Nat × Nat
  | 0, _, h => h
  | fuel + 1, bytes, (h0, h1, h2, h3, h4) =>
    let ws := sha1ExtendFrom (bytesToWords (bytes.take 64)) 64
    let r := sha1Rounds 0 ws (h0, h1, h2, h3, h4)
    sha1Loop fuel (bytes.drop 64)
      (w32 (h0 + r.1), w32 (h1 + r.2.1), w32 (h2 + r.2.2.1),
       w32 (h3 + r.2.2.2.1), w32 (h4 + r.2.2.2.2))

/-- SHA-1 digest (20 bytes) of a byte string. -/
def sha1 (msg : List Nat) : List Nat :=
  let padded := sha1pad msg
  let h := sha1Loop (padded.length / 64) padded
    (0x67452301, 0xEFCDAB89, 0x98BADCFE, 0x10325476, 0xC3D2E1F0)
  beBytes4 h.1 ++ beBytes4 h.2.1 ++ beBytes4 h.2.2.1 ++ beBytes4 h.2.2.2.1 ++ beBytes4 h.2.2.2.2

/-! ## UUIDs as CPython builds them -/

/-- Byte form of `uuid.UUID(fields=(time_low, time_mid, time_hi, csh, csl, node),
version=v)`: the version nibble overwrites the top four bits of `time_hi` and the
RFC 4122 variant overwrites the top two bits of `csh`, exactly as in CPython's
`uuid.UUID.__init__`. -/
def uuidFromFields (time_low time_mid time_hi csh csl node version : Nat) : List Nat :=
  let time_hi_v := (time_hi.land 0x0FFF).lor (version <<< 12)
  let csh_v := (csh.land 0x3F).lor 0x80
  beBytes4 time_low ++
    [(time_mid >>> 8) % 256, time_mid % 256, (time_hi_v >>> 8) % 256, time_hi_v % 256,
     csh_v, csl] ++
    [(node >>> 40) % 256, (node >>> 32) % 256, (node >>> 24) % 256,
     (node >>> 16) % 256, (node >>> 8) % 256, node % 256]

/-- The fixed namespace constant of app.py line 129:
`uuid.UUID(fields=(0x21401300, 0x2531, 0x0110, 0x42, 0x42, 0x494E4352474D), version=8)`,
as its 16-byte form. -/
def UUID_NAMESPACE : List Nat :=
  uuidFromFields 0x21401300 0x2531 0x0110 0x42 0x42 0x494E4352474D 8

/-- Version-5 (name-based, SHA-1) UUID as CPython's `uuid.uuid5`: the first 16
bytes of `sha1(namespace_bytes ++ name)` with the version nibble forced to 5 and
the variant bits forced to RFC 4122. -/
def uuid5 (nsBytes name : List Nat) : List Nat :=
  let d := (sha1 (nsBytes ++ name)).take 16
  (d.set 6 (((d.getD 6 0).land 0x0F).lor 0x50)).set 8 (((d.getD 8 0).land 0x3F).lor 0x80)

/-- Lower-case hex digit. -/
def hexChar (n : Nat) : Char := if n < 10 then Char.ofNat (48 + n) else Char.ofNat (87 + n)

/-- Two lower-case hex digits of a byte. -/
def byteHex (b : Nat) : List Char := [hexChar (b / 16), hexChar (b % 16)]

/-- Hyphenated lower-case hex string of a 16-byte UUID, as CPython's `str(uuid)`
(8-4-4-4-12 hex digits). -/
def uuidStr (u : List Nat) : String :=
  String.mk
    ((u.take 4).flatMap byteHex ++ ['-'] ++ ((u.drop 4).take 2).flatMap byteHex ++ ['-'] ++
      ((u.drop 6).take 2).flatMap byteHex ++ ['-'] ++ ((u.drop 8).take 2).flatMap byteHex ++
      ['-'] ++ (u.drop 10).flatMap byteHex)

/-! ## CPython string, int and struct semantics used by app.py -/

/-- Decimal value of a character under CPython `int()`: the ASCII digits and,
as representatives of the non-ASCII Unicode decimal digits (category Nd) that
`int()` also parses, the Arabic-Indic digits U+0660..U+0669. -/
def unicodeDecimalValue (c : Char) : Option Nat :=
  if 48 ≤ c.toNat ∧ c.toNat ≤ 57 then some (c.toNat - 48)
  else if 1632 ≤ c.toNat ∧ c.toNat ≤ 1641 then some (c.toNat - 1632)
  else none

/-- Characters with Unicode property Numeric_Type=Digit that carry no decimal
value: `str.isdigit` accepts them but `int()` raises ValueError on them. The
superscripts one, two and three (U+00B9, U+00B2, U+00B3) are representatives. -/
def isDigitNotDecimal (c : Char) : Bool :=
  c.toNat == 178 || c.toNat == 179 || c.toNat == 185

/-- CPython `str.isdigit` on one character: true for decimal digits and for the
Numeric_Type=Digit characters without decimal value. -/
def pyCharIsDigit (c : Char) : Bool :=
  (unicodeDecimalValue c).isSome || isDigitNotDecimal c

/-- CPython `str.isdigit()`: false on the empty string, otherwise true exactly
when every character is a digit. -/
def pyStrIsDigit (s : List Char) : Bool := !s.isEmpty && s.all pyCharIsDigit

/-- Python exceptions that the issuance path of app.py can raise. -/
inductive PyExc
  | valueError
  | structError
  deriving DecidableEq

/-- CPython `int(s)` in base 10: the decimal value of the digits, raising
ValueError on the empty string and on any character without a decimal value
(such as the superscript digits that `str.isdigit` accepts). -/
def pyInt (s : List Char) : Except PyExc Nat :=
  if s.isEmpty then .error .valueError
  else
    s.foldlM
      (fun acc c =>
        match unicodeDecimalValue c with
        | some d => .ok (acc * 10 + d)
        | none => .error .valueError)
      0

/-- CPython `struct.pack("<Q", n)`: the little-endian 8-byte encoding, raising
`struct.error` when `n` does not fit in 64 bits. -/
def structPackQ (n : Nat) : Except PyExc (List Nat) :=
  if n < 18446744073709551616 then
    .ok [n % 256, (n >>> 8) % 256, (n >>> 16) % 256, (n >>> 24) % 256,
         (n >>> 32) % 256, (n >>> 40) % 256, (n >>> 48) % 256, (n >>> 56) % 256]
  else .error .structError

/-- app.py lines 133-135: `struct.pack("<Q", steamid) + random_value` hashed
into a version-5 UUID under the fixed namespace. The `struct.error` for a
steam id outside 64 bits propagates. -/
def uuid_from_steamid_and_value (steamid : Nat) (random_value : List Nat) :
    Except PyExc (List Nat) :=
  match structPackQ steamid with
  | .error e => .error e
  | .ok packed => .ok (uuid5 UUID_NAMESPACE (packed ++ random_value))

/-- Sanity: the namespace constant has the byte values CPython produces. -/
theorem UUID_NAMESPACE_bytes :
    UUID_NAMESPACE =
      [0x21, 0x40, 0x13, 0x00, 0x25, 0x31, 0x81, 0x10, 0x82, 0x42, 0x49, 0x4E, 0x43, 0x52, 0x47, 0x4D] := by
  decide

/-- Sanity: SHA-1 of the empty message is the standard test vector. -/
theorem sha1_empty :
    sha1 [] =
      [0xda, 0x39, 0xa3, 0xee, 0x5e, 0x6b, 0x4b, 0x0d, 0x32, 0x55,
       0xbf, 0xef, 0x95, 0x60, 0x18, 0x90, 0xaf, 0xd8, 0x07, 0x09] := by
  decide

deriving instance DecidableEq for Except

/-- Sanity: the derived UUID for steam id 1 with a 32-zero-byte nonce matches
the value CPython's `uuid.uuid5` computes for app.py's namespace. -/
theorem uuid5_vector :
    (uuid_from_steamid_and_value 1 (List.replicate 32 0)).map uuidStr =
      .ok ("b800bc52-f09c-526c-aab4-c3f89a6de93a") := by
  decide

/-! ## The session token: payload, spec-modelled signer, issuance endpoint -/

/-- The token payload of app.py's `TokenData`: a 64-bit steam id and the
derived UUID (16 bytes). -/
structure TokenData where
  steam_id : Nat
  uuid : List Nat
  deriving DecidableEq

/-- Modelled from the spec: the fixed serialization
`b64pickle.dumps(TokenData.model_dump())` (pickle is an external library),
as a deterministic injective encoding of the payload. -/
def payloadEncode (t : TokenData) : List Nat := t.steam_id :: t.uuid

/-- Modelled from the spec: payload deserialization, inverse of `payloadEncode`. -/
def payloadDecode : List Nat → Option TokenData
  | sid :: rest => some ⟨sid, rest⟩
  | [] => none

/-- Modelled from the spec: the itsdangerous keyed signature (an external
library), idealized as a perfect MAC — the tag determines the signing key and
the signed message, matching the spec's reading that a token verifies only
against the key that signed it. -/
def mac (key msg : List Nat) : List Nat := key.length :: (key ++ msg)

/-- Modelled from the spec: the signed envelope `payload.timestamp.signature`
produced by the itsdangerous TimedSerializer, as a length-prefixed sequence. -/
def tokenBytes (payload : List Nat) (ts : Nat) (tag : List Nat) : List Nat :=
  payload.length :: (payload ++ ts :: tag)

/-- Split a token envelope back into payload, timestamp and tag. -/
def tokenSplit : List Nat → Option (List Nat × Nat × List Nat)
  | [] => none
  | n :: rest =>
    match rest.drop n with
    | ts :: tag => if n ≤ rest.length then some (rest.take n, ts, tag) else none
    | [] => none

/-- app.py lines 84-85 through the spec-modelled serializer: serialize the
payload and sign it together with the issuance timestamp under the secret key. -/
def TokenData.encapsulate (t : TokenData) (key : List Nat) (now : Nat) : List Nat :=
  tokenBytes (payloadEncode t) now (mac key (payloadEncode t ++ [now]))

/-- The itsdangerous exceptions that `loads` raises; none is caught in app.py. -/
inductive VerifyError
  | badSignature
  | signatureExpired
  deriving DecidableEq

/-- app.py lines 87-89 through the spec-modelled serializer:
`secret_serializer.loads(data, max_age=config.main.expiry)` — fail with
BadSignature unless the envelope parses and the tag is the MAC of payload and
timestamp under the current key, fail with SignatureExpired when the age
`now - ts` exceeds `max_age`, then deserialize the payload. -/
def TokenData.decapsulate (key : List Nat) (now maxAge : Nat) (data : List Nat) :
    Except VerifyError TokenData :=
  match tokenSplit data with
  | none => .error .badSignature
  | some (payload, ts, tag) =>
    if tag ≠ mac key (payload ++ [ts]) then .error .badSignature
    else if maxAge < now - ts then .error .signatureExpired
    else
      match payloadDecode payload with
      | some t => .ok t
      | none => .error .badSignature

/-- The response models of app.py: `BaseResponse {message}` and
`AuthResponse {message, token}`. -/
inductive Response
  | base (message : String)
  | auth (message : String) (token : List Nat)
  deriving DecidableEq

/-- JSON field names of a serialized response: pydantic emits exactly the
declared model fields. -/
def Response.fields : Response → List String
  | .base _ => [("message")]
  | .auth _ _ => [("message"), ("token")]

/-- app.py lines 200-210, the `/auth` endpoint body: reject with status 400 and
message "Invalid parameter" when the steam id is not all digits, is longer than
25 characters, or the decoded nonce is not exactly 32 bytes; otherwise parse
the steam id, derive the UUID, and answer status 201 with message "Ok" and the
encapsulated token. A Python exception on the success path is `Except.error`. -/
def auth (steam_id : List Char) (random_value : List Nat) (key : List Nat) (now : Nat) :
    Except PyExc (Nat × Response) :=
  if !pyStrIsDigit steam_id || steam_id.length > 25 || random_value.length != 32 then
    .ok (400, .base ("Invalid parameter"))
  else
    match pyInt steam_id with
    | .error e => .error e
    | .ok steamid =>
      match uuid_from_steamid_and_value steamid random_value with
      | .error e => .error e
      | .ok u => .ok (201, .auth ("Ok") (TokenData.encapsulate ⟨steamid, u⟩ key now))

/-- Sanity: a well-formed request is answered with 201 and an auth response. -/
theorem auth_vector :
    auth (("1").toList) (List.replicate 32 0) [7] 5 =
      .ok (201, .auth ("Ok")
        (TokenData.encapsulate
          ⟨1, [0xb8, 0x00, 0xbc, 0x52, 0xf0, 0x9c, 0x52, 0x6c,
               0xaa, 0xb4, 0xc3, 0xf8, 0x9a, 0x6d, 0xe9, 0x3a]⟩ [7] 5)) := by
  decide

/-! ## Event ingestion: records, spec-modelled transactional sink, endpoints -/

/-- The four event kinds of app.py's `SendEventType`. -/
inductive SendEventType
  | start
  | upgrade
  | update
  | end_
  deriving DecidableEq

/-- One event record of app.py's `SendData`; the game save payload is the
opaque type `σ`, as the spec treats it as an uninterpreted structured value. -/
structure SendData (σ : Type) where
  event : SendEventType
  playtime : Int
  timestamp : Int
  game_version : Int
  scene : String
  save : σ
  deriving DecidableEq

/-- A stamped record of app.py's `SendDataWithID`: the event record plus the
`player_id` key. -/
structure SendDataWithID (σ : Type) where
  event : SendEventType
  playtime : Int
  timestamp : Int
  game_version : Int
  scene : String
  save : σ
  player_id : String
  deriving DecidableEq

/-- app.py lines 216-218: `send_data_with_id["player_id"] = str(token.uuid)` —
the stamped record carries every field of the input record unchanged, plus the
player id. -/
def stamp {σ : Type} (player_id : String) (r : SendData σ) : SendDataWithID σ :=
  ⟨r.event, r.playtime, r.timestamp, r.game_version, r.scene, r.save, player_id⟩

/-- Modelled from the spec: the transactional storage sink, reduced to the
records it holds visible, in insertion order. -/
structure Sink (σ : Type) where
  visible : List (SendDataWithID σ)
  deriving DecidableEq

/-- app.py lines 216-219 inside one transaction: stamp and insert each record
in input order into the staging area of the transaction; the first refused
insert raises, which aborts the transaction. The predicate `fail` says which
insert attempts the sink refuses. -/
def runBatch {σ : Type} (fail : SendDataWithID σ → Bool) (player_id : String) :
    List (SendData σ) → List (SendDataWithID σ) → Except Unit (List (SendDataWithID σ))
  | [], staged => .ok staged
  | r :: rest, staged =>
    let rs := stamp player_id r
    if fail rs then .error () else runBatch fail player_id rest (staged ++ [rs])

/-- app.py lines 213-221, the `/send` endpoint body with an already verified
token, over the spec-modelled transactional sink (`begin_transaction`, lines
165-171): all inserts run within one transaction; when every insert succeeds
the staged records become visible and the endpoint answers 200 with "Ok"; when
any insert fails the transaction aborts, nothing new becomes visible, and the
exception propagates (status 500, no response model). -/
def send {σ : Type} (fail : SendDataWithID σ → Bool) (token : TokenData)
    (request : List (SendData σ)) (sink : Sink σ) : Sink σ × Nat × Option Response :=
  match runBatch fail (uuidStr token.uuid) request [] with
  | .error _ => (sink, 500, none)
  | .ok staged => (⟨sink.visible ++ staged⟩, 200, some (.base ("Ok")))

/-- Modelled from the spec: the HTTP scaffolding around `/send`. A request
without the X-Session-Token header is rejected by the framework's request
validation with status 422 before the endpoint runs. With the header, the
dependency `get_token_data` (app.py lines 161-162) calls
`TokenData.decapsulate`; app.py installs no exception handler for the
itsdangerous errors, so a verification failure propagates as an unhandled
exception, which the framework answers with status 500. A verified token runs
the endpoint body. -/
def sendDispatch {σ : Type} (key : List Nat) (now maxAge : Nat)
    (header : Option (List Nat)) (fail : SendDataWithID σ → Bool)
    (request : List (SendData σ)) (sink : Sink σ) : Nat :=
  match header with
  | none => 422
  | some data =>
    match TokenData.decapsulate key now maxAge data with
    | .error _ => 500
    | .ok t => (send fail t request sink).2.1

/-! ## Helper lemmas -/

/-- The idealized MAC is injective: a tag determines signing key and message. -/
theorem mac_inj {k1 m1 k2 m2 : List Nat} (h : mac k1 m1 = mac k2 m2) :
    k1 = k2 ∧ m1 = m2 := by
  unfold mac at h
  injection h with h1 h2
  exact List.append_inj h2 h1

/-- Splitting a built token envelope recovers its parts. -/
theorem tokenSplit_tokenBytes (p : List Nat) (ts : Nat) (tag : List Nat) :
    tokenSplit (tokenBytes p ts tag) = some (p, ts, tag) := by
  simp [tokenSplit, tokenBytes, List.drop_left, List.take_left, List.length_append]

/-- Complete characterization of verifying an issued token: success exactly
under the signing key and within the expiry window, with the signature checked
before the timestamp. -/
theorem decap_encap (t : TokenData) (key key2 : List Nat) (now now2 maxAge : Nat) :
    TokenData.decapsulate key2 now2 maxAge (t.encapsulate key now) =
      if key2 = key then
        (if maxAge < now2 - now then .error .signatureExpired else .ok t)
      else .error .badSignature := by
  unfold TokenData.decapsulate TokenData.encapsulate
  rw [tokenSplit_tokenBytes]
  by_cases hk : key2 = key
  · subst hk
    simp [payloadDecode, payloadEncode]
  · have hne : mac key (payloadEncode t ++ [now]) ≠ mac key2 (payloadEncode t ++ [now]) :=
      fun h => hk ((mac_inj h).1.symm)
    simp [hk, hne]

/-- Running a batch with no refused insert stages every stamped record, in
input order. -/
theorem runBatch_ok {σ : Type} (fail : SendDataWithID σ → Bool) (pid : String)
    (request : List (SendData σ)) (staged : List (SendDataWithID σ))
    (h : ∀ r ∈ request, fail (stamp pid r) = false) :
    runBatch fail pid request staged = .ok (staged ++ request.map (stamp pid)) := by
  induction request generalizing staged with
  | nil => simp [runBatch]
  | cons r rest ih =>
    have hr := h r (List.mem_cons_self r rest)
    rw [runBatch, if_neg (by simp [hr])]
    rw [ih _ (fun x hx => h x (List.mem_cons_of_mem _ hx))]
    simp

/-- Running a batch with some refused insert aborts. -/
theorem runBatch_error {σ : Type} (fail : SendDataWithID σ → Bool) (pid : String)
    (request : List (SendData σ)) (staged : List (SendDataWithID σ))
    (h : ∃ r ∈ request, fail (stamp pid r) = true) :
    runBatch fail pid request staged = .error () := by
  induction request generalizing staged with
  | nil => simp at h
  | cons r rest ih =>
    by_cases hr : fail (stamp pid r) = true
    · rw [runBatch, if_pos hr]
    · rw [runBatch, if_neg hr]
      obtain ⟨x, hx, hfx⟩ := h
      rcases List.mem_cons.1 hx with rfl | hx
      · exact absurd hfx hr
      · exact ih _ ⟨x, hx, hfx⟩

/-- A batch run that succeeds staged exactly the stamped records in order. -/
theorem runBatch_ok_inv {σ : Type} (fail : SendDataWithID σ → Bool) (pid : String)
    (request : List (SendData σ)) (staged out : List (SendDataWithID σ))
    (h : runBatch fail pid request staged = .ok out) :
    out = staged ++ request.map (stamp pid) := by
  induction request generalizing staged with
  | nil =>
    rw [runBatch] at h
    injection h with h
    simp [h.symm]
  | cons r rest ih =>
    rw [runBatch] at h
    by_cases hr : fail (stamp pid r) = true
    · rw [if_pos hr] at h
      exact absurd h (by simp)
    · rw [if_neg hr] at h
      have := ih _ h
      simpa using this

/-- CPython `str.isdigit` is false exactly on the empty string and on strings
with a non-digit character. -/
theorem pyStrIsDigit_eq_false (s : List Char) :
    pyStrIsDigit s = false ↔ s = [] ∨ ∃ c ∈ s, ¬ pyCharIsDigit c := by
  cases s with
  | nil => simp [pyStrIsDigit]
  | cons c cs =>
    constructor
    · intro h
      right
      have h2 : (c :: cs).all pyCharIsDigit = false := by
        cases hx : (c :: cs).all pyCharIsDigit
        · rfl
        · simp [pyStrIsDigit, hx] at h
      obtain ⟨x, hx, hpx⟩ := List.all_eq_false.mp h2
      exact ⟨x, hx, by simpa using hpx⟩
    · rintro (h | ⟨x, hx, hpx⟩)
      · cases h
      · have h2 : (c :: cs).all pyCharIsDigit = false :=
          List.all_eq_false.mpr ⟨x, hx, by simpa using hpx⟩
        simp [pyStrIsDigit, h2]

/-- Each encoded word byte is below 256. -/
theorem beBytes4_mem_lt (n : Nat) : ∀ b ∈ beBytes4 n, b < 256 := by
  intro b hb
  simp only [beBytes4, List.mem_cons, List.not_mem_nil, or_false] at hb
  rcases hb with rfl | rfl | rfl | rfl <;> omega

/-- SHA-1 digests are 20 bytes long. -/
theorem sha1_length (msg : List Nat) : (sha1 msg).length = 20 := by
  simp [sha1, beBytes4]

/-- Every SHA-1 digest entry is a byte value. -/
theorem sha1_mem_lt (msg : List Nat) : ∀ b ∈ sha1 msg, b < 256 := by
  intro b hb
  simp only [sha1, List.mem_append] at hb
  rcases hb with ((((h | h) | h) | h) | h) <;> exact beBytes4_mem_lt _ _ h

/-- Derived UUIDs are 16 bytes long. -/
theorem uuid5_length (ns name : List Nat) : (uuid5 ns name).length = 16 := by
  simp [uuid5, List.length_set, List.length_take, sha1_length]

/-- Every derived UUID entry is a byte value. -/
theorem uuid5_mem_lt (ns name : List Nat) : ∀ b ∈ uuid5 ns name, b < 256 := by
  intro b hb
  simp only [uuid5] at hb
  have h80 : ∀ x : Nat, (x.land 0x3F).lor 0x80 < 256 := by
    intro x
    have : x.land 0x3F < 2 ^ 8 := lt_of_le_of_lt Nat.and_le_right (by norm_num)
    simpa using Nat.or_lt_two_pow (n := 8) this (by norm_num)
  have h50 : ∀ x : Nat, (x.land 0x0F).lor 0x50 < 256 := by
    intro x
    have : x.land 0x0F < 2 ^ 8 := lt_of_le_of_lt Nat.and_le_right (by norm_num)
    simpa using Nat.or_lt_two_pow (n := 8) this (by norm_num)
  rcases List.mem_or_eq_of_mem_set hb with hb | rfl
  · rcases List.mem_or_eq_of_mem_set hb with hb | rfl
    · exact sha1_mem_lt _ _ (List.mem_of_mem_take hb)
    · exact h50 _
  · exact h80 _

/-- Hex pairs double the length. -/
theorem length_flatMap_byteHex (l : List Nat) : (l.flatMap byteHex).length = 2 * l.length := by
  induction l with
  | nil => rfl
  | cons a l ih =>
    simp only [List.flatMap_cons, List.length_append, ih, byteHex, List.length_cons]
    simp
    omega

/-- Character list of a packed string. -/
theorem stringToList_mk (l : List Char) : (String.mk l).toList = l := rfl

/-- Length of a packed string. -/
theorem stringLength_mk (l : List Char) : (String.mk l).length = l.length := rfl

/-- String form of a 16-byte UUID has 36 characters. -/
theorem uuidStr_length (u : List Nat) (h : u.length = 16) : (uuidStr u).length = 36 := by
  have t1 : (u.take 4).length = 4 := by simp [List.length_take, h]
  have t2 : ((u.drop 4).take 2).length = 2 := by simp [h]
  have t3 : ((u.drop 6).take 2).length = 2 := by simp [h]
  have t4 : ((u.drop 8).take 2).length = 2 := by simp [h]
  have t5 : (u.drop 10).length = 6 := by simp [h]
  simp only [uuidStr, stringLength_mk, List.length_append, length_flatMap_byteHex,
    t1, t2, t3, t4, t5, List.length_cons, List.length_nil]

/-- Hex digits are never the hyphen. -/
theorem hexChar_ne_hyphen : ∀ k < 16, hexChar k ≠ '-' := by decide

/-- Hex encodings of bytes contain no hyphen. -/
theorem byteHex_ne_hyphen (b : Nat) (hb : b < 256) : ∀ c ∈ byteHex b, c ≠ '-' := by
  intro c hc
  have h1 : b / 16 < 16 := by omega
  have h2 : b % 16 < 16 := by omega
  simp only [byteHex, List.mem_cons, List.not_mem_nil, or_false] at hc
  rcases hc with rfl | rfl
  · exact hexChar_ne_hyphen _ h1
  · exact hexChar_ne_hyphen _ h2

/-- Hex blocks contribute no hyphen occurrences. -/
theorem count_hyphen_flatMap (l : List Nat) (h : ∀ b ∈ l, b < 256) :
    (l.flatMap byteHex).count '-' = 0 := by
  rw [List.count_eq_zero]
  intro hc
  obtain ⟨b, hb, hcb⟩ := List.mem_flatMap.mp hc
  exact byteHex_ne_hyphen b (h b hb) _ hcb rfl

/-- String form of a UUID of byte values has exactly the four separating
hyphens. -/
theorem uuidStr_hyphens (u : List Nat) (h : ∀ b ∈ u, b < 256) :
    ((uuidStr u).toList).count '-' = 4 := by
  have htake : ∀ b ∈ u.take 4, b < 256 := fun b hb => h b (List.mem_of_mem_take hb)
  have hd4 : ∀ b ∈ (u.drop 4).take 2, b < 256 :=
    fun b hb => h b (List.mem_of_mem_drop (List.mem_of_mem_take hb))
  have hd6 : ∀ b ∈ (u.drop 6).take 2, b < 256 :=
    fun b hb => h b (List.mem_of_mem_drop (List.mem_of_mem_take hb))
  have hd8 : ∀ b ∈ (u.drop 8).take 2, b < 256 :=
    fun b hb => h b (List.mem_of_mem_drop (List.mem_of_mem_take hb))
  have hd10 : ∀ b ∈ u.drop 10, b < 256 := fun b hb => h b (List.mem_of_mem_drop hb)
  simp [uuidStr, stringToList_mk, List.count_append, count_hyphen_flatMap _ htake,
    count_hyphen_flatMap _ hd4, count_hyphen_flatMap _ hd6, count_hyphen_flatMap _ hd8,
    count_hyphen_flatMap _ hd10]

/-! ## The derivation in the words of the spec, and the issuance success path -/

/-- Modelled from the spec: the identity derivation stated in the spec's own
words — a version-5 UUID-style hash of the fixed namespace constant
concatenated with the little-endian 8-byte platform id and the nonce bytes. -/
def specIdentity (platform_id : Nat) (nonce : List Nat) : List Nat :=
  uuid5 UUID_NAMESPACE ((List.range 8).map (fun i => platform_id / 256 ^ i % 256) ++ nonce)

/-- For a 64-bit value, `struct.pack("<Q", n)` succeeds and is the little-endian
byte sequence of the spec. -/
theorem structPackQ_eq_le (n : Nat) (h : n < 18446744073709551616) :
    structPackQ n = .ok ((List.range 8).map (fun i => n / 256 ^ i % 256)) := by
  simp only [structPackQ, if_pos h]
  congr 1
  simp [List.range_succ, Nat.shiftRight_eq_div_pow]

/-- The issuance success path: under passing validation and a parseable 64-bit
steam id, `auth` returns 201 with "Ok" and the token over the derived identity. -/
theorem auth_success (s : List Char) (rv key : List Nat) (now n : Nat)
    (h1 : pyStrIsDigit s = true) (h2 : s.length ≤ 25) (h3 : rv.length = 32)
    (h4 : pyInt s = .ok n) (h5 : n < 18446744073709551616) :
    auth s rv key now =
      .ok (201, .auth ("Ok") (TokenData.encapsulate ⟨n, specIdentity n rv⟩ key now)) := by
  have hg : (!pyStrIsDigit s || decide (s.length > 25) || rv.length != 32) = false := by
    simp [h1, h3]
    omega
  unfold auth
  rw [hg]
  simp only [Bool.false_eq_true, if_false, h4, uuid_from_steamid_and_value,
    structPackQ_eq_le n h5, specIdentity]

/-! ## Claims -/

/-- C5: the pseudonymous identity is derived exactly as the spec says — a
version-5 (name-based, SHA-1) UUID of the fixed namespace constant over the
little-endian 8-byte platform id concatenated with the nonce bytes; for every
pair the derivation is the same total function, yielding a 16-byte (128-bit)
identity whose hyphenated-hex string form is stable: 36 characters with the
four separating hyphens. -/
theorem claim_C5_identity_derivation (platform_id : Nat) (nonce : List Nat)
    (h64 : platform_id < 18446744073709551616) (h32 : nonce.length = 32) :
    uuid_from_steamid_and_value platform_id nonce = .ok (specIdentity platform_id nonce) ∧
    (specIdentity platform_id nonce).length = 16 ∧
    (∀ b ∈ specIdentity platform_id nonce, b < 256) ∧
    (uuidStr (specIdentity platform_id nonce)).length = 36 ∧
    ((uuidStr (specIdentity platform_id nonce)).toList).count '-' = 4 := by
  refine ⟨?_, uuid5_length _ _, fun b hb => uuid5_mem_lt _ _ b hb,
    uuidStr_length _ (uuid5_length _ _), uuidStr_hyphens _ (uuid5_mem_lt _ _)⟩
  simp only [uuid_from_steamid_and_value, structPackQ_eq_le platform_id h64, specIdentity]

/-- C5 witness: the derivation claim instantiated at platform id 1 with the
zero nonce. -/
theorem claim_C5_witness :
    uuid_from_steamid_and_value 1 (List.replicate 32 0) =
      .ok (specIdentity 1 (List.replicate 32 0)) ∧
    (specIdentity 1 (List.replicate 32 0)).length = 16 ∧
    (∀ b ∈ specIdentity 1 (List.replicate 32 0), b < 256) ∧
    (uuidStr (specIdentity 1 (List.replicate 32 0))).length = 36 ∧
    ((uuidStr (specIdentity 1 (List.replicate 32 0))).toList).count '-' = 4 :=
  claim_C5_identity_derivation 1 (List.replicate 32 0) (by decide) (by decide)

/-- C1 counterexample: for the valid issuance request (steam id "1", 32-byte
nonce), the success response carries exactly the fields `message` and `token`
— there is no `expire` field, contradicting the claim that the success
response contains an expire field equal to the configured expiry seconds. -/
theorem claim_C1_counterexample :
    (auth (("1").toList) (List.replicate 32 0) [7] 5).map (fun p => (p.1, p.2.fields)) =
      .ok (201, [("message"), ("token")]) ∧
    ("expire") ∉ [("message"), ("token")] := by
  constructor
  · decide
  · decide

/-- C1 (amended): for every issuance request whose steam id is all digits of
length at most 25 and parses to a value below 2^64, and whose nonce decodes to
exactly 32 bytes, `auth` answers the created status 201 with message "Ok" and
a token; the response carries exactly the fields `message` and `token`, so no
expire field is included. -/
theorem claim_C1_success_response (s : List Char) (rv key : List Nat) (now n : Nat)
    (h1 : pyStrIsDigit s = true) (h2 : s.length ≤ 25) (h3 : rv.length = 32)
    (h4 : pyInt s = .ok n) (h5 : n < 18446744073709551616) :
    ∃ tok, auth s rv key now = .ok (201, .auth ("Ok") tok) ∧
      (Response.auth ("Ok") tok).fields = [("message"), ("token")] :=
  ⟨_, auth_success s rv key now n h1 h2 h3 h4 h5, rfl⟩

/-- C1 witness: the amended success-response claim at steam id "1" with the
zero nonce. -/
theorem claim_C1_witness :
    ∃ tok, auth (("1").toList) (List.replicate 32 0) [7] 5 = .ok (201, .auth ("Ok") tok) ∧
      (Response.auth ("Ok") tok).fields = [("message"), ("token")] :=
  claim_C1_success_response (("1").toList) (List.replicate 32 0) [7] 5 1
    (by decide) (by decide) (by decide) (by decide) (by decide)

/-- C3: the claim that `auth` never raises is wrong on the code — the
digits-only steam id of 25 nines (value 10^25 - 1, far above 2^64 - 1) passes
validation and then `struct.pack("<Q", ...)` raises `struct.error`, and the
superscript-two character (which `str.isdigit` accepts) passes validation and
then `int()` raises ValueError; neither input takes the structured
"Invalid parameter" rejection path. -/
theorem claim_C3_crash :
    auth (List.replicate 25 '9') (List.replicate 32 0) [7] 5 = .error .structError ∧
    pyStrIsDigit (List.replicate 25 '9') = true ∧
    pyInt (List.replicate 25 '9') = .ok (10 ^ 25 - 1) ∧
    18446744073709551615 < 10 ^ 25 - 1 ∧
    auth [Char.ofNat 178] (List.replicate 32 0) [7] 5 = .error .valueError ∧
    pyStrIsDigit [Char.ofNat 178] = true :=
  ⟨by decide, by decide, by decide, by decide, by decide, by decide⟩

/-- C6 counterexample: the empty steam id contains no non-digit character,
has length at most 25, and comes with a 32-byte nonce, yet validation rejects
it (CPython `"".isdigit()` is false), so the claimed "exactly when"
equivalence fails at the empty string. -/
theorem claim_C6_counterexample :
    auth [] (List.replicate 32 0) [7] 5 = .ok (400, .base ("Invalid parameter")) ∧
    (¬ ∃ c ∈ ([] : List Char), ¬ pyCharIsDigit c) ∧
    ([] : List Char).length ≤ 25 ∧ (List.replicate 32 (0 : Nat)).length = 32 :=
  ⟨by decide, by decide, by decide, by decide⟩

/-- The validation guard of `auth` holds exactly on empty steam ids, non-digit
characters, overlong steam ids, and wrong nonce lengths. -/
theorem auth_guard_iff (s : List Char) (rv : List Nat) :
    (!pyStrIsDigit s || decide (s.length > 25) || rv.length != 32) = true ↔
      (s = [] ∨ (∃ c ∈ s, ¬ pyCharIsDigit c) ∨ 25 < s.length ∨ rv.length ≠ 32) := by
  rw [Bool.or_eq_true, Bool.or_eq_true, Bool.not_eq_true', pyStrIsDigit_eq_false]
  simp [or_assoc]

/-- C6 (amended): issuance returns the validation-failure response (status
400, message "Invalid parameter") — and hence never a token — exactly when
the steam id is empty or contains a non-digit character or is longer than 25
characters, or the decoded nonce length differs from 32 bytes; on every other
input validation passes and the rejection response is not produced. -/
theorem claim_C6_validation (s : List Char) (rv key : List Nat) (now : Nat) :
    auth s rv key now = .ok (400, .base ("Invalid parameter")) ↔
      (s = [] ∨ (∃ c ∈ s, ¬ pyCharIsDigit c) ∨ 25 < s.length ∨ rv.length ≠ 32) := by
  rw [← auth_guard_iff s rv]
  unfold auth
  by_cases hg : (!pyStrIsDigit s || decide (s.length > 25) || rv.length != 32) = true
  · simp [hg]
  · rw [if_neg hg]
    simp only [hg, iff_false]
    cases hint : pyInt s with
    | error e => simp
    | ok m =>
      cases hsp : structPackQ m with
      | error e => simp [uuid_from_steamid_and_value, hsp]
      | ok packed => simp [uuid_from_steamid_and_value, hsp]

/-- C2: the claim that token-verification failures surface as a uniform
unauthorized 4xx condition is wrong on the code — app.py installs no handler
for the itsdangerous exceptions, so a malformed or badly signed or expired
session token surfaces as an unhandled-exception status 500 (and a missing
header as the framework's 422 validation error); no 4xx unauthorized response
is produced. -/
theorem claim_C2_uncaught :
    sendDispatch (σ := Unit) [7] 10 3600 (some [9, 9, 9]) (fun _ => false) [] ⟨[]⟩ = 500 ∧
    TokenData.decapsulate [7] 10 3600 [9, 9, 9] = .error .badSignature ∧
    sendDispatch (σ := Unit) [7] 10 1
      (some (TokenData.encapsulate ⟨1, List.replicate 16 0⟩ [7] 0)) (fun _ => false) [] ⟨[]⟩ = 500 ∧
    TokenData.decapsulate [7] 10 1 (TokenData.encapsulate ⟨1, List.replicate 16 0⟩ [7] 0) =
      .error .signatureExpired ∧
    sendDispatch (σ := Unit) [7] 10 3600
      (some (TokenData.encapsulate ⟨1, List.replicate 16 0⟩ [8] 10)) (fun _ => false) [] ⟨[]⟩ = 500 ∧
    sendDispatch (σ := Unit) [7] 10 3600 none (fun _ => false) [] ⟨[]⟩ = 422 ∧
    ¬ (400 ≤ 500 ∧ 500 ≤ 499) :=
  ⟨by decide, by decide, by decide, by decide, by decide, by decide, by decide⟩

/-- C7: verification of an issued token rejects with the expiry failure
whenever the elapsed time since issuance exceeds the expiry window, rejects
with the signature failure whenever the verification key differs from the
signing key, and accepts — returning the issued payload — exactly when the
key matches and the elapsed time is within the window. -/
theorem claim_C7_token_verification (t : TokenData) (key key2 : List Nat)
    (now now2 expiry : Nat) :
    (expiry < now2 - now → key2 = key →
      TokenData.decapsulate key2 now2 expiry (t.encapsulate key now) =
        .error .signatureExpired) ∧
    (key2 ≠ key →
      TokenData.decapsulate key2 now2 expiry (t.encapsulate key now) =
        .error .badSignature) ∧
    (TokenData.decapsulate key2 now2 expiry (t.encapsulate key now) = .ok t ↔
      (key2 = key ∧ now2 - now ≤ expiry)) := by
  refine ⟨?_, ?_, ?_⟩ <;> rw [decap_encap]
  · intro h hk
    rw [if_pos hk, if_pos h]
  · intro hk
    rw [if_neg hk]
  · by_cases hk : key2 = key
    · rw [if_pos hk]
      by_cases he : expiry < now2 - now
      · rw [if_pos he]
        simp [hk]
        omega
      · rw [if_neg he]
        simp [hk]
        omega
    · rw [if_neg hk]
      simp [hk]

/-- C7 witness: a token issued at time 0 with expiry window 1 is rejected as
expired at time 2; the same token checked under another key is rejected as a
signature failure; checked under the issuing key within the window it yields
the issued payload. -/
theorem claim_C7_witness :
    TokenData.decapsulate [7] 2 1 (TokenData.encapsulate ⟨1, List.replicate 16 0⟩ [7] 0) =
      .error .signatureExpired ∧
    TokenData.decapsulate [8] 2 3600 (TokenData.encapsulate ⟨1, List.replicate 16 0⟩ [7] 0) =
      .error .badSignature ∧
    TokenData.decapsulate [7] 2 3600 (TokenData.encapsulate ⟨1, List.replicate 16 0⟩ [7] 0) =
      .ok ⟨1, List.replicate 16 0⟩ := by
  refine ⟨(claim_C7_token_verification ⟨1, List.replicate 16 0⟩ [7] [7] 0 2 1).1
      (by decide) rfl,
    (claim_C7_token_verification ⟨1, List.replicate 16 0⟩ [7] [8] 0 2 3600).2.1
      (by decide),
    (claim_C7_token_verification ⟨1, List.replicate 16 0⟩ [7] [7] 0 2 3600).2.2.mpr
      ⟨rfl, by decide⟩⟩

/-- C9 counterexample: two issuances for the same (platform id, nonce) pair
whose issuance timestamps fall in the same second (the signed timestamp has
one-second granularity) produce byte-identical opaque tokens — the byte
strings do not differ, contradicting the claim's universal difference; the
strings differ only when the issuance timestamps differ. -/
theorem claim_C9_counterexample :
    ∃ tok1 tok2,
      auth (("1").toList) (List.replicate 32 0) [7] 5 = .ok (201, .auth ("Ok") tok1) ∧
      auth (("1").toList) (List.replicate 32 0) [7] 5 = .ok (201, .auth ("Ok") tok2) ∧
      tok1 = tok2 :=
  ⟨_, _,
    auth_success (("1").toList) (List.replicate 32 0) [7] 5 1
      (by decide) (by decide) (by decide) (by decide) (by decide),
    auth_success (("1").toList) (List.replicate 32 0) [7] 5 1
      (by decide) (by decide) (by decide) (by decide) (by decide),
    rfl⟩

/-- C9 (amended): for every valid (platform id, 32-byte nonce) pair, issuing
at two distinct timestamps yields tokens whose opaque byte strings differ
(the issuance timestamp is signed into the envelope), while verifying either
token yields the same payload and hence the same pseudonymous identity. -/
theorem claim_C9_distinct_timestamps (s : List Char) (rv key : List Nat)
    (ts1 ts2 expiry n : Nat)
    (h1 : pyStrIsDigit s = true) (h2 : s.length ≤ 25) (h3 : rv.length = 32)
    (h4 : pyInt s = .ok n) (h5 : n < 18446744073709551616) (hts : ts1 ≠ ts2) :
    ∃ tok1 tok2 td,
      auth s rv key ts1 = .ok (201, .auth ("Ok") tok1) ∧
      auth s rv key ts2 = .ok (201, .auth ("Ok") tok2) ∧
      tok1 ≠ tok2 ∧
      TokenData.decapsulate key ts1 expiry tok1 = .ok td ∧
      TokenData.decapsulate key ts2 expiry tok2 = .ok td := by
  refine ⟨_, _, ⟨n, specIdentity n rv⟩,
    auth_success s rv key ts1 n h1 h2 h3 h4 h5,
    auth_success s rv key ts2 n h1 h2 h3 h4 h5, ?_, ?_, ?_⟩
  · intro h
    have h2 := congrArg tokenSplit h
    rw [TokenData.encapsulate, TokenData.encapsulate, tokenSplit_tokenBytes,
      tokenSplit_tokenBytes] at h2
    exact hts (congrArg (fun x => x.2.1) (Option.some.inj h2))
  · rw [decap_encap, if_pos rfl, if_neg (by omega)]
  · rw [decap_encap, if_pos rfl, if_neg (by omega)]

/-- C9 witness: the amended claim at steam id "1", zero nonce, issuance
timestamps 5 and 6. -/
theorem claim_C9_witness :
    ∃ tok1 tok2 td,
      auth (("1").toList) (List.replicate 32 0) [7] 5 = .ok (201, .auth ("Ok") tok1) ∧
      auth (("1").toList) (List.replicate 32 0) [7] 6 = .ok (201, .auth ("Ok") tok2) ∧
      tok1 ≠ tok2 ∧
      TokenData.decapsulate [7] 5 3600 tok1 = .ok td ∧
      TokenData.decapsulate [7] 6 3600 tok2 = .ok td :=
  claim_C9_distinct_timestamps (("1").toList) (List.replicate 32 0) [7] 5 6 3600 1
    (by decide) (by decide) (by decide) (by decide) (by decide) (by decide)

/-- C10: the pseudonymous identity and the issued token depend only on the
parsed integer value of the steam id, not on its textual form — two
digits-only steam id strings of length at most 25 parsing to the same value
produce, with the same nonce and at the same time, identical issuance
responses: same steam id value, same identity, same token bytes. -/
theorem claim_C10_textual_form (s1 s2 : List Char) (rv key : List Nat) (now n : Nat)
    (h1 : pyStrIsDigit s1 = true) (h1b : s1.length ≤ 25)
    (h2 : pyStrIsDigit s2 = true) (h2b : s2.length ≤ 25)
    (h4 : pyInt s1 = .ok n) (h4b : pyInt s2 = .ok n)
    (h5 : n < 18446744073709551616) (h3 : rv.length = 32) :
    auth s1 rv key now = auth s2 rv key now ∧
    ∃ tok, auth s1 rv key now =
      .ok (201, .auth ("Ok") tok) ∧
      tok = TokenData.encapsulate ⟨n, specIdentity n rv⟩ key now := by
  rw [auth_success s1 rv key now n h1 h1b h3 h4 h5,
    auth_success s2 rv key now n h2 h2b h3 h4b h5]
  exact ⟨rfl, _, rfl, rfl⟩

/-- C10 witness: the steam ids "0123" and "123" parse to the same value 123
and issue identically. -/
theorem claim_C10_witness :
    auth (("0123").toList) (List.replicate 32 0) [7] 5 =
      auth (("123").toList) (List.replicate 32 0) [7] 5 ∧
    ∃ tok, auth (("0123").toList) (List.replicate 32 0) [7] 5 =
      .ok (201, .auth ("Ok") tok) ∧
      tok = TokenData.encapsulate ⟨123, specIdentity 123 (List.replicate 32 0)⟩ [7] 5 :=
  claim_C10_textual_form (("0123").toList) (("123").toList) (List.replicate 32 0) [7] 5 123
    (by decide) (by decide) (by decide) (by decide) (by decide) (by decide) (by decide) (by decide)

/-- C4: batch ingestion over the transactional sink is atomic — when every
insert succeeds the whole batch of stamped records becomes visible, appended
in input order, and the endpoint reports success with "Ok"; when any single
insert fails the transaction aborts, the sink keeps exactly its previous
records (zero records of the batch are visible), and the request fails as a
whole. -/
theorem claim_C4_atomicity {σ : Type} (fail : SendDataWithID σ → Bool)
    (token : TokenData) (request : List (SendData σ)) (sink : Sink σ) :
    ((∀ r ∈ request, fail (stamp (uuidStr token.uuid) r) = false) →
      send fail token request sink =
        (⟨sink.visible ++ request.map (stamp (uuidStr token.uuid))⟩, 200,
          some (.base ("Ok")))) ∧
    ((∃ r ∈ request, fail (stamp (uuidStr token.uuid) r) = true) →
      send fail token request sink = (sink, 500, none)) := by
  constructor
  · intro h
    rw [send, runBatch_ok _ _ _ _ h]
    simp
  · intro h
    rw [send, runBatch_error _ _ _ _ h]

/-- C4 witness: over the unit save type, a singleton batch whose insert is
refused leaves the sink empty and fails, and the same batch with no refusal
lands fully with 200 "Ok". -/
theorem claim_C4_witness :
    send (σ := Unit) (fun _ => false) ⟨1, List.replicate 16 0⟩
        [⟨.start, 0, 0, 1, ("menu"), ()⟩] ⟨[]⟩ =
      (⟨(⟨[]⟩ : Sink Unit).visible ++
        ([⟨.start, 0, 0, 1, ("menu"), ()⟩] : List (SendData Unit)).map
          (stamp (uuidStr (List.replicate 16 0)))⟩, 200, some (.base ("Ok"))) ∧
    send (σ := Unit) (fun _ => true) ⟨1, List.replicate 16 0⟩
        [⟨.start, 0, 0, 1, ("menu"), ()⟩] ⟨[]⟩ = (⟨[]⟩, 500, none) :=
  ⟨(claim_C4_atomicity (σ := Unit) (fun _ => false) ⟨1, List.replicate 16 0⟩
      [⟨.start, 0, 0, 1, ("menu"), ()⟩] ⟨[]⟩).1 (by decide),
    (claim_C4_atomicity (σ := Unit) (fun _ => true) ⟨1, List.replicate 16 0⟩
      [⟨.start, 0, 0, 1, ("menu"), ()⟩] ⟨[]⟩).2 (by decide)⟩

/-- C8: whenever a batch request succeeds, the persisted records are exactly
the input records in input order, each equal to its input record with the one
added field `player_id` set to the string form of the verified token's
identity, every other field (`event`, `playtime`, `timestamp`,
`game_version`, `scene`, `save`) unchanged. -/
theorem claim_C8_stamping {σ : Type} (fail : SendDataWithID σ → Bool)
    (token : TokenData) (request : List (SendData σ)) (sink : Sink σ)
    (h : (send fail token request sink).2.1 = 200) :
    (send fail token request sink).1.visible =
      sink.visible ++ request.map (stamp (uuidStr token.uuid)) ∧
    ∀ r ∈ request,
      (stamp (uuidStr token.uuid) r).player_id = uuidStr token.uuid ∧
      (stamp (uuidStr token.uuid) r).event = r.event ∧
      (stamp (uuidStr token.uuid) r).playtime = r.playtime ∧
      (stamp (uuidStr token.uuid) r).timestamp = r.timestamp ∧
      (stamp (uuidStr token.uuid) r).game_version = r.game_version ∧
      (stamp (uuidStr token.uuid) r).scene = r.scene ∧
      (stamp (uuidStr token.uuid) r).save = r.save := by
  constructor
  · cases hrb : runBatch fail (uuidStr token.uuid) request [] with
    | error u =>
      rw [send, hrb] at h
      cases h
    | ok staged =>
      rw [send, hrb]
      simpa using runBatch_ok_inv _ _ _ _ _ hrb
  · intro r _
    exact ⟨rfl, rfl, rfl, rfl, rfl, rfl, rfl⟩

/-- C8 witness: a persisted singleton batch over the unit save type equals the
stamped input, and the stamp keeps the event field while adding the player
id. -/
theorem claim_C8_witness :
    (send (σ := Unit) (fun _ => false) ⟨1, List.replicate 16 0⟩
        [⟨.start, 0, 0, 1, ("menu"), ()⟩] ⟨[]⟩).1.visible =
      (⟨[]⟩ : Sink Unit).visible ++
        ([⟨.start, 0, 0, 1, ("menu"), ()⟩] : List (SendData Unit)).map
          (stamp (uuidStr (List.replicate 16 0))) ∧
    (stamp (uuidStr (List.replicate 16 0))
        (⟨.start, 0, 0, 1, ("menu"), ()⟩ : SendData Unit)).player_id =
      uuidStr (List.replicate 16 0) := by
  have h := claim_C8_stamping (σ := Unit) (fun _ => false) ⟨1, List.replicate 16 0⟩
    [⟨.start, 0, 0, 1, ("menu"), ()⟩] ⟨[]⟩ (by decide)
  exact ⟨h.1, (h.2 _ (by decide)).1⟩
